import Mathlib

/-!
Verification development for `guidellm_parser.py`, a benchmark-results
parser with optional OpenSearch indexing.

The Python source is shallowly embedded below:
* JSON scalar values appearing in output records are modelled by `JValue`
  (JSON numbers are modelled as integers; no claim depends on fractional
  arithmetic).
* The input document is modelled by typed structures with `Option` fields,
  where `Option.getD` mirrors Python's defaulted `dict.get(key, default)`.
* Python's `str.split(sep)` for a one-character separator is modelled by
  `pySplit` over character lists; out-of-range list indexing (`xs[i]`,
  which raises `IndexError`) is modelled by `List.get?` with the `none`
  branch mapped to an error value.
* `datetime.fromtimestamp(x).isoformat()` (local-timezone ISO-8601
  rendering of epoch seconds) is modelled by an abstract conversion
  function `iso : Int → String` passed as a parameter.
* The OpenSearch client is an external collaborator; its observable
  behaviour (`ping`, `index`) is modelled by the oracle `OSWorld`.
* `sys.exit`, uncaught exceptions and output emission are modelled by
  explicit result values (`ParseResult`, `RunTrace`).
-/

/-- A JSON scalar value as it appears in an output record. -/
inductive JValue where
  | num (n : Int)
  | str (s : String)
  | bool (b : Bool)
deriving Repr, DecidableEq

/-- An output record: an ordered mapping from field names to values,
in Python dict insertion order. -/
abbrev Record : Type := List (String × JValue)

/-! ### Input document model (spec §3, mirroring the `.get` chains of the source) -/

/-- `benchmark['args']['strategy']`. -/
structure Strategy where
  type_ : Option String := none
  rate : Option Int := none
deriving Repr, DecidableEq

/-- `benchmark['args']`. -/
structure BArgs where
  strategy : Option Strategy := none
deriving Repr, DecidableEq

/-- `benchmark['request_totals']`. -/
structure RequestTotals where
  total : Option Int := none
  successful : Option Int := none
  errored : Option Int := none
  incomplete : Option Int := none
deriving Repr, DecidableEq

/-- `benchmark['request_loader']`. -/
structure RequestLoader where
  data : Option String := none
deriving Repr, DecidableEq

/-- `benchmark['worker']`. -/
structure Worker where
  backend_model : Option String := none
deriving Repr, DecidableEq

/-- `percentiles` sub-mapping of a metric. -/
structure Percentiles where
  p95 : Option Int := none
  p99 : Option Int := none
deriving Repr, DecidableEq

/-- The `successful` sub-mapping of one metric: `mean` and `percentiles`. -/
structure MetricStats where
  mean : Option Int := none
  percentiles : Option Percentiles := none
deriving Repr, DecidableEq

/-- One entry of `benchmark['metrics']`, keyed `successful`. -/
structure MetricEntry where
  successful : Option MetricStats := none
deriving Repr, DecidableEq

/-- `benchmark['metrics']`: the seven metric categories read by the source. -/
structure Metrics where
  time_to_first_token_ms : Option MetricEntry := none
  inter_token_latency_ms : Option MetricEntry := none
  requests_per_second : Option MetricEntry := none
  request_latency : Option MetricEntry := none
  tokens_per_second : Option MetricEntry := none
  output_tokens_per_second : Option MetricEntry := none
  time_per_output_token_ms : Option MetricEntry := none
deriving Repr, DecidableEq

/-- `request['scheduler_info']`. -/
structure SchedulerInfo where
  request_start : Option Int := none
  errored : Option Bool := none
  completed : Option Bool := none
deriving Repr, DecidableEq

/-- One element of `requests['successful']` or `requests['errored']`. -/
structure Request where
  scheduler_info : Option SchedulerInfo := none
  request_latency : Option Int := none
  tokens_per_second : Option Int := none
  output_tokens_per_second : Option Int := none
  time_per_output_token_ms : Option Int := none
  inter_token_latency_ms : Option Int := none
  time_to_first_token_ms : Option Int := none
deriving Repr, DecidableEq

/-- `benchmark['requests']`. -/
structure Requests where
  successful : List Request := []
  errored : List Request := []
deriving Repr, DecidableEq

/-- One element of the top-level `benchmarks` sequence. -/
structure Benchmark where
  start_time : Option Int := none
  args : Option BArgs := none
  request_totals : Option RequestTotals := none
  request_loader : Option RequestLoader := none
  worker : Option Worker := none
  metrics : Option Metrics := none
  requests : Option Requests := none
deriving Repr, DecidableEq

/-- The parsed results document: a mapping with a `benchmarks` sequence
(`data.get('benchmarks', [])`; an absent key is the empty list). -/
structure Doc where
  benchmarks : List Benchmark := []
deriving Repr, DecidableEq

/-! ### Python `str.split` on a one-character separator -/

/-- Python `s.split(sep)` for a single-character separator: splits at every
occurrence, keeping empty segments; `''.split(sep) == ['']`. -/
def pySplit (sep : Char) : List Char → List (List Char)
  | [] => [[]]
  | c :: rest =>
    if c = sep then [] :: pySplit sep rest
    else
      match pySplit sep rest with
      | [] => [[c]]
      | h :: t => (c :: h) :: t

/-! ### Token extraction from `request_loader.data`
(source lines 69-70).  The source computes

  data.split('=')[1].split(',')[0]  if '=' in data  else 0   (prompt)
  data.split('=')[2]                if '=' in data  else 0   (output)

inside one dict literal; both conditions read the same string, so the two
expressions are combined in one function.  Python list indexing out of
range raises `IndexError`, modelled by the `.error` branch. -/

/-- The prompt-token / output-token pair extracted from the
`request_loader.data` string, or the uncaught `IndexError` the source
raises when the split has too few segments. -/
def tokenFields (dataStr : List Char) : Except String (JValue × JValue) :=
  if '=' ∈ dataStr then
    let parts := pySplit '=' dataStr
    match parts.get? 1 with
    | none => .error "IndexError: list index out of range"
    | some p1 =>
      match (pySplit ',' p1).get? 0 with
      | none => .error "IndexError: list index out of range"
      | some prompt =>
        match parts.get? 2 with
        | none => .error "IndexError: list index out of range"
        | some p2 => .ok (.str (String.mk prompt), .str (String.mk p2))
  else .ok (.num 0, .num 0)

/-! ### Record builders (source lines 50-164) -/

/-- The summary record (source lines 50-131), in dict insertion order.
`pt`/`ot` are the already-computed token fields, `iso` models
`datetime.fromtimestamp(·).isoformat()`. -/
def summaryRecord (b : Benchmark) (uuid job_name : String)
    (iso : Int → String) (pt ot : JValue) : Record :=
  let strat := (b.args.getD {}).strategy.getD {}
  let totals := b.request_totals.getD {}
  let ms := b.metrics.getD {}
  let ttft := (ms.time_to_first_token_ms.getD {}).successful.getD {}
  let itl := (ms.inter_token_latency_ms.getD {}).successful.getD {}
  let thr := (ms.requests_per_second.getD {}).successful.getD {}
  let rl := (ms.request_latency.getD {}).successful.getD {}
  let tps := (ms.tokens_per_second.getD {}).successful.getD {}
  let otps := (ms.output_tokens_per_second.getD {}).successful.getD {}
  let tpot := (ms.time_per_output_token_ms.getD {}).successful.getD {}
  [("uuid", .str uuid),
   ("job_name", .str job_name),
   ("timestamp", .str (iso (b.start_time.getD 0))),
   ("strategy", .str (strat.type_.getD "")),
   ("rate", .num (strat.rate.getD 0)),
   ("total_requests", .num (totals.total.getD 0)),
   ("successful_requests", .num (totals.successful.getD 0)),
   ("errored_requests", .num (totals.errored.getD 0)),
   ("incomplete_requests", .num (totals.incomplete.getD 0)),
   ("prompt_tokens", pt),
   ("output_tokens", ot),
   ("backend_model", .str ((b.worker.getD {}).backend_model.getD "")),
   ("ttft_mean_ms", .num (ttft.mean.getD 0)),
   ("ttft_p99_ms", .num ((ttft.percentiles.getD {}).p99.getD 0)),
   ("itl_mean_ms", .num (itl.mean.getD 0)),
   ("itl_p99_ms", .num ((itl.percentiles.getD {}).p99.getD 0)),
   ("throughput_mean_rps", .num (thr.mean.getD 0)),
   ("throughput_p95_rps", .num ((thr.percentiles.getD {}).p95.getD 0)),
   ("throughput_p99_rps", .num ((thr.percentiles.getD {}).p99.getD 0)),
   ("request_latency_mean_seconds", .num (rl.mean.getD 0)),
   ("request_latency_p95_seconds", .num ((rl.percentiles.getD {}).p95.getD 0)),
   ("request_latency_p99_seconds", .num ((rl.percentiles.getD {}).p99.getD 0)),
   ("tokens_per_second_mean", .num (tps.mean.getD 0)),
   ("tokens_per_second_p95", .num ((tps.percentiles.getD {}).p95.getD 0)),
   ("tokens_per_second_p99", .num ((tps.percentiles.getD {}).p99.getD 0)),
   ("output_tokens_per_second_mean", .num (otps.mean.getD 0)),
   ("output_tokens_per_second_p95", .num ((otps.percentiles.getD {}).p95.getD 0)),
   ("output_tokens_per_second_p99", .num ((otps.percentiles.getD {}).p99.getD 0)),
   ("time_per_output_token_mean_ms", .num (tpot.mean.getD 0)),
   ("time_per_output_token_p95_ms", .num ((tpot.percentiles.getD {}).p95.getD 0)),
   ("time_per_output_token_p99_ms", .num ((tpot.percentiles.getD {}).p99.getD 0))]

/-- The record appended for one element of `requests['successful']`
(source lines 138-152). -/
def successRecord (uuid job_name : String) (iso : Int → String)
    (r : Request) : Record :=
  let si := r.scheduler_info.getD {}
  [("timestamp", .str (iso (si.request_start.getD 0))),
   ("errored", .bool (si.errored.getD false)),
   ("completed", .bool (si.completed.getD false)),
   ("request_latency_seconds", .num (r.request_latency.getD 0)),
   ("tokens_per_second", .num (r.tokens_per_second.getD 0)),
   ("output_tokens_per_second", .num (r.output_tokens_per_second.getD 0)),
   ("time_per_output_token_ms", .num (r.time_per_output_token_ms.getD 0)),
   ("inter_token_latency_ms", .num (r.inter_token_latency_ms.getD 0)),
   ("time_to_first_token_ms", .num (r.time_to_first_token_ms.getD 0)),
   ("uuid", .str uuid),
   ("job_name", .str job_name)]

/-- The record appended for one element of `requests['errored']`
(source lines 156-164); note `errored` defaults to `True` here. -/
def erroredRecord (uuid job_name : String) (iso : Int → String)
    (r : Request) : Record :=
  let si := r.scheduler_info.getD {}
  [("timestamp", .str (iso (si.request_start.getD 0))),
   ("errored", .bool (si.errored.getD true)),
   ("completed", .bool (si.completed.getD false)),
   ("uuid", .str uuid),
   ("job_name", .str job_name)]

/-! ### parse_benchmarks (source lines 20-167) -/

/-- Outcome of `parse_benchmarks`: a `sys.exit(code)` with the printed
message, an uncaught exception, or the list of records returned. -/
inductive ParseResult where
  | exited (code : Nat) (msg : String)
  | raised (err : String)
  | ok (records : List Record)
deriving Repr, DecidableEq

/-- The transform applied to an already-loaded document (source lines
41-167): exit on an empty/absent `benchmarks` list, build the summary
(which raises if token extraction indexes out of range), then append one
record per successful and per errored request, in that order. -/
def parseDoc (doc : Doc) (uuid job_name : String)
    (iso : Int → String) : ParseResult :=
  match doc.benchmarks with
  | [] => .exited 1 "Error: No benchmarks found in the file"
  | b :: _ =>
    match tokenFields ((b.request_loader.getD {}).data.getD "").data with
    | .error e => .raised e
    | .ok (pt, ot) =>
      let reqs := b.requests.getD {}
      .ok (summaryRecord b uuid job_name iso pt ot ::
           (reqs.successful.map (successRecord uuid job_name iso) ++
            reqs.errored.map (erroredRecord uuid job_name iso)))

/-- What is found at the `--results` path: no file, a file that is not
valid JSON, or a valid JSON mapping (modelled by `Doc`). -/
inductive FileInput where
  | missing
  | invalidJson
  | valid (doc : Doc)
deriving Repr, DecidableEq

/-- `parse_benchmarks` including its file-loading prologue (source lines
30-44): missing file and JSON decode errors print a message and
`sys.exit(1)`. -/
def parse_benchmarks (fi : FileInput) (uuid job_name : String)
    (iso : Int → String) : ParseResult :=
  match fi with
  | .missing => .exited 1 "Error: File not found"
  | .invalidJson => .exited 1 "Error: Invalid JSON"
  | .valid doc => parseDoc doc uuid job_name iso

/-! ### index_to_opensearch (source lines 170-209)
The OpenSearch client is external; `OSWorld` is an oracle for the
observable outcome of the `ping` and `index` calls. -/

/-- Outcome of the connectivity probe `es.ping()`: a boolean answer, or
an exception raised inside the `try` block. -/
inductive PingBehavior where
  | pongTrue
  | pongFalse
  | raiseConn
  | raiseOther
deriving Repr, DecidableEq

/-- Outcome of the `es.index(...)` call. -/
inductive IndexBehavior where
  | succeed (docId : String)
  | raiseConn
  | raiseRequest
  | raiseOther
deriving Repr, DecidableEq

/-- The environment an indexing attempt runs against. -/
structure OSWorld where
  ping : PingBehavior
  indexOp : IndexBehavior
deriving Repr, DecidableEq

/-- A message printed by `index_to_opensearch`. -/
inductive OSMsg where
  | cannotConnect
  | connectionError
  | requestError
  | unexpectedError
  | successId (docId : String)
deriving Repr, DecidableEq

/-- Observable outcome of `index_to_opensearch`: the returned boolean,
the messages printed, and how many `es.index` calls were made. -/
structure IndexOutcome where
  success : Bool
  messages : List OSMsg
  indexAttempts : Nat
deriving Repr, DecidableEq

/-- `index_to_opensearch(data, es_server, index_name)` (source lines
170-209): probe the connection; on a `False` ping print a cannot-connect
error and return `False` without indexing; otherwise index once, and map
`ConnectionError` / `RequestError` / any other exception to a printed
message and a `False` return.  The function never raises and never
retries. -/
def index_to_opensearch (_dataArg : List Record)
    (_es_server _index_name : String) (w : OSWorld) : IndexOutcome :=
  match w.ping with
  | .pongFalse => ⟨false, [.cannotConnect], 0⟩
  | .raiseConn => ⟨false, [.connectionError], 0⟩
  | .raiseOther => ⟨false, [.unexpectedError], 0⟩
  | .pongTrue =>
    match w.indexOp with
    | .succeed docId => ⟨true, [.successId docId], 1⟩
    | .raiseConn => ⟨false, [.connectionError], 1⟩
    | .raiseRequest => ⟨false, [.requestError], 1⟩
    | .raiseOther => ⟨false, [.unexpectedError], 1⟩

/-! ### main (source lines 212-241) -/

/-- The command-line arguments after `argparse`, with the contents of the
`--results` path folded in. -/
structure CLIArgs where
  results : FileInput
  uuid : String := ""
  es_server : Option String := none
  es_index : Option String := none
  output : Option String := none
  job_name : String := ""

/-- Python truthiness of an optional string argument (`argparse` yields
`None` when the flag is absent; the empty string is falsy). -/
def truthy : Option String → Bool
  | none => false
  | some s => !s.isEmpty

/-- Observable outcome of one `main` run: the process exit code and
whether the extracted results were emitted to the requested destination
(output file or standard output). -/
structure RunTrace where
  exitCode : Nat
  outputEmitted : Bool
deriving Repr, DecidableEq

/-- `main` (source lines 212-241): parse; if both `--es-server` and
`--es-index` are truthy, index, and on failure `sys.exit(1)` at once —
reaching the output-writing block (lines 233-241) only otherwise.  An
uncaught exception from parsing also terminates with status 1 and no
output. -/
def main_run (args : CLIArgs) (w : OSWorld) (iso : Int → String) : RunTrace :=
  match parse_benchmarks args.results args.uuid args.job_name iso with
  | .exited code _ => ⟨code, false⟩
  | .raised _ => ⟨1, false⟩
  | .ok results =>
    if truthy args.es_server && truthy args.es_index then
      if (index_to_opensearch results (args.es_server.getD "")
            (args.es_index.getD "") w).success then
        ⟨0, true⟩
      else ⟨1, false⟩
    else ⟨0, true⟩

/-! ### Concrete test fixtures used by counterexamples and witnesses -/

/-- A fixed stand-in for the local-timezone ISO-8601 rendering. -/
def isoTest : Int → String := fun n => "T" ++ toString n

/-- A minimal valid document: one benchmark, all fields absent. -/
def docMinimal : Doc := { benchmarks := [{}] }

/-- A valid document whose `request_loader.data` has exactly one `=`. -/
def docOneEq : Doc :=
  { benchmarks := [{ request_loader := some { data := some "a=b" } }] }

/-- A valid document whose `request_loader.data` has three `=` signs. -/
def docThreeEq : Doc :=
  { benchmarks := [{ request_loader := some { data := some "a=b=c=d" } }] }

/-- A successful request with populated fields. -/
def reqS1 : Request :=
  { scheduler_info := some { request_start := some 100, errored := some false,
                             completed := some true },
    request_latency := some 2, tokens_per_second := some 30 }

/-- A successful request with every field absent. -/
def reqS2 : Request := {}

/-- An errored request with every field absent. -/
def reqE1 : Request := {}

/-- A benchmark with two successful and one errored request. -/
def benchW : Benchmark :=
  { start_time := some 42,
    requests := some { successful := [reqS1, reqS2], errored := [reqE1] } }

/-- A valid document with two successful and one errored request. -/
def docWithReqs : Doc := { benchmarks := [benchW] }

/-- The record list `parse_benchmarks` returns for `docWithReqs`. -/
def resW : List Record :=
  summaryRecord benchW "u" "j" isoTest (.num 0) (.num 0) ::
  ([reqS1, reqS2].map (successRecord "u" "j" isoTest) ++
   [reqE1].map (erroredRecord "u" "j" isoTest))

/-- The record list `parse_benchmarks` returns for `docMinimal` under the
caller identification of `argsIndexing`. -/
def resMin : List Record :=
  [summaryRecord {} "u1" "job1" isoTest (.num 0) (.num 0)]

/-- The record list `parse_benchmarks` returns for `docMinimal` with empty
caller identification. -/
def resMinEmptyId : List Record :=
  [summaryRecord {} "" "" isoTest (.num 0) (.num 0)]

/-- The record list `parse_benchmarks` returns for `docThreeEq`. -/
def resThreeEq : List Record :=
  [summaryRecord { request_loader := some { data := some "a=b=c=d" } }
     "" "" isoTest (.str "b") (.str "c")]

/-- The field names of the summary record, in emission order. -/
def summaryKeys : List String :=
  ["uuid", "job_name", "timestamp", "strategy", "rate",
   "total_requests", "successful_requests", "errored_requests",
   "incomplete_requests", "prompt_tokens", "output_tokens", "backend_model",
   "ttft_mean_ms", "ttft_p99_ms",
   "itl_mean_ms", "itl_p99_ms",
   "throughput_mean_rps", "throughput_p95_rps", "throughput_p99_rps",
   "request_latency_mean_seconds", "request_latency_p95_seconds",
   "request_latency_p99_seconds",
   "tokens_per_second_mean", "tokens_per_second_p95", "tokens_per_second_p99",
   "output_tokens_per_second_mean", "output_tokens_per_second_p95",
   "output_tokens_per_second_p99",
   "time_per_output_token_mean_ms", "time_per_output_token_p95_ms",
   "time_per_output_token_p99_ms"]

/-- The numeric metric field names of the summary record. -/
def metricFieldKeys : List String :=
  ["ttft_mean_ms", "ttft_p99_ms",
   "itl_mean_ms", "itl_p99_ms",
   "throughput_mean_rps", "throughput_p95_rps", "throughput_p99_rps",
   "request_latency_mean_seconds", "request_latency_p95_seconds",
   "request_latency_p99_seconds",
   "tokens_per_second_mean", "tokens_per_second_p95", "tokens_per_second_p99",
   "output_tokens_per_second_mean", "output_tokens_per_second_p95",
   "output_tokens_per_second_p99",
   "time_per_output_token_mean_ms", "time_per_output_token_p95_ms",
   "time_per_output_token_p99_ms"]

/-- CLI arguments requesting indexing, with a valid results file. -/
def argsIndexing : CLIArgs :=
  { results := .valid docMinimal,
    uuid := "u1",
    es_server := some "http://localhost:9200",
    es_index := some "bench",
    output := some "out.json",
    job_name := "job1" }

/-- A world in which the OpenSearch connectivity probe answers `False`. -/
def worldPingFalse : OSWorld := { ping := .pongFalse, indexOp := .succeed "id0" }

/-! ### Lemmas about `pySplit` -/

theorem pySplit_ne_nil (sep : Char) (cs : List Char) : pySplit sep cs ≠ [] := by
  induction cs with
  | nil => simp [pySplit]
  | cons c rest ih =>
    simp only [pySplit]
    split
    · simp
    · cases hs : pySplit sep rest with
      | nil => exact absurd hs ih
      | cons hd tl => simp

theorem pySplit_head? (sep : Char) (cs : List Char) :
    (pySplit sep cs).head? = some (cs.takeWhile (fun x => x != sep)) := by
  induction cs with
  | nil => simp [pySplit]
  | cons c rest ih =>
    simp only [pySplit, List.takeWhile]
    by_cases h : c = sep
    · subst h
      simp
    · rw [if_neg h]
      cases hs : pySplit sep rest with
      | nil => exact absurd hs (pySplit_ne_nil sep rest)
      | cons hd tl =>
        rw [hs] at ih
        simp only [List.head?] at ih
        simp only [List.head?, Option.some.injEq] at *
        have hb : (c != sep) = true := bne_iff_ne.mpr h
        rw [hb]
        simp [ih]

theorem pySplit_not_mem (sep : Char) (cs : List Char) (h : sep ∉ cs) :
    pySplit sep cs = [cs] := by
  induction cs with
  | nil => rfl
  | cons c rest ih =>
    simp only [List.mem_cons, not_or] at h
    simp only [pySplit]
    rw [if_neg (fun hc => h.1 hc.symm), ih h.2]

theorem pySplit_append_sep (sep : Char) (a rest : List Char) (h : sep ∉ a) :
    pySplit sep (a ++ sep :: rest) = a :: pySplit sep rest := by
  induction a with
  | nil => simp [pySplit]
  | cons c a' ih =>
    simp only [List.mem_cons, not_or] at h
    simp only [List.cons_append, pySplit]
    rw [if_neg (fun hc => h.1 hc.symm)]
    simp only [List.append_eq]
    rw [ih h.2]

theorem pySplit_get_zero (sep : Char) (cs : List Char) :
    (pySplit sep cs).get? 0 = some (cs.takeWhile (fun x => x != sep)) := by
  have h := pySplit_head? sep cs
  cases hs : pySplit sep cs with
  | nil => exact absurd hs (pySplit_ne_nil sep cs)
  | cons hd tl =>
    rw [hs] at h
    simpa using h

theorem tokenFields_no_eq (s : List Char) (h : '=' ∉ s) :
    tokenFields s = .ok (.num 0, .num 0) := by
  simp [tokenFields, h]

theorem tokenFields_two_eq (a b c : List Char) (ha : '=' ∉ a) (hb : '=' ∉ b) :
    tokenFields (a ++ '=' :: (b ++ '=' :: c)) =
      .ok (.str (String.mk (b.takeWhile (fun x => x != ','))),
           .str (String.mk (c.takeWhile (fun x => x != '=')))) := by
  have hmem : '=' ∈ a ++ '=' :: (b ++ '=' :: c) := by simp
  simp only [tokenFields, if_pos hmem]
  rw [pySplit_append_sep '=' a (b ++ '=' :: c) ha,
      pySplit_append_sep '=' b c hb]
  simp only [List.get?]
  rw [pySplit_get_zero ',' b, pySplit_get_zero '=' c]

theorem tokenFields_one_eq (a b : List Char) (ha : '=' ∉ a) (hb : '=' ∉ b) :
    tokenFields (a ++ '=' :: b) =
      .error "IndexError: list index out of range" := by
  have hmem : '=' ∈ a ++ '=' :: b := by simp
  simp only [tokenFields, if_pos hmem]
  rw [pySplit_append_sep '=' a b ha, pySplit_not_mem '=' b hb]
  simp only [List.get?]
  rw [pySplit_get_zero ',' b]

/-! ### Structural lemmas about `parseDoc` -/

theorem parseDoc_ok_inv (doc : Doc) (uuid job_name : String) (iso : Int → String)
    (res : List Record) (h : parseDoc doc uuid job_name iso = .ok res) :
    ∃ b rest pt ot, doc.benchmarks = b :: rest ∧
      tokenFields ((b.request_loader.getD {}).data.getD "").data = .ok (pt, ot) ∧
      res = summaryRecord b uuid job_name iso pt ot ::
            ((b.requests.getD {}).successful.map (successRecord uuid job_name iso) ++
             (b.requests.getD {}).errored.map (erroredRecord uuid job_name iso)) := by
  cases hb : doc.benchmarks with
  | nil =>
    simp only [parseDoc, hb] at h
    exact absurd h (by simp)
  | cons b rest =>
    simp only [parseDoc, hb] at h
    cases ht : tokenFields ((b.request_loader.getD {}).data.getD "").data with
    | error e =>
      rw [ht] at h
      simp at h
    | ok p =>
      obtain ⟨pt, ot⟩ := p
      rw [ht] at h
      simp only [ParseResult.ok.injEq] at h
      exact ⟨b, rest, pt, ot, rfl, ht, h.symm⟩

/-- C4: for every valid document whose first benchmark has N successful and
M errored requests, a successful extraction returns exactly 1 + N + M
records, ordered summary first, then the successful requests in document
order, then the errored requests in document order; with N = M = 0 the
output is the single summary record. -/
theorem c4_order_and_length (doc : Doc) (uuid job_name : String)
    (iso : Int → String) (b : Benchmark) (rest : List Benchmark)
    (res : List Record) (hb : doc.benchmarks = b :: rest)
    (h : parseDoc doc uuid job_name iso = .ok res) :
    res.length = 1 + (b.requests.getD {}).successful.length
                   + (b.requests.getD {}).errored.length ∧
    (∃ pt ot, res.head? = some (summaryRecord b uuid job_name iso pt ot)) ∧
    res.tail = (b.requests.getD {}).successful.map (successRecord uuid job_name iso)
               ++ (b.requests.getD {}).errored.map (erroredRecord uuid job_name iso) ∧
    ((b.requests.getD {}).successful = [] → (b.requests.getD {}).errored = [] →
       ∃ s, res = [s]) := by
  obtain ⟨b', rest', pt, ot, hb', ht, hres⟩ :=
    parseDoc_ok_inv doc uuid job_name iso res h
  have hbb : b = b' ∧ rest = rest' := by
    have := hb.symm.trans hb'
    exact ⟨by injection this, by injection this⟩
  obtain ⟨rfl, rfl⟩ := hbb
  subst hres
  refine ⟨?_, ⟨pt, ot, rfl⟩, rfl, ?_⟩
  · simp
    omega
  · intro h1 h2
    simp [h1, h2]

/-- C4 witness: on a concrete document with two successful and one errored
request, extraction succeeds and the output has 1 + 2 + 1 records. -/
theorem c4_witness :
    resW.length = 1 + (benchW.requests.getD {}).successful.length
                    + (benchW.requests.getD {}).errored.length :=
  (c4_order_and_length docWithReqs "u" "j" isoTest benchW [] resW rfl rfl).1

/-- C6: every record of a successful extraction carries `uuid` and
`job_name` fields equal verbatim to the caller-supplied strings, for every
caller-supplied pair including the empty strings. -/
theorem c6_uuid_job_name (doc : Doc) (uuid job_name : String)
    (iso : Int → String) (res : List Record)
    (h : parseDoc doc uuid job_name iso = .ok res) :
    ∀ r ∈ res, ("uuid", JValue.str uuid) ∈ r ∧
               ("job_name", JValue.str job_name) ∈ r := by
  obtain ⟨b, rest, pt, ot, hb, ht, hres⟩ :=
    parseDoc_ok_inv doc uuid job_name iso res h
  subst hres
  intro r hr
  rcases List.mem_cons.mp hr with rfl | hr2
  · constructor <;> simp [summaryRecord]
  · rcases List.mem_append.mp hr2 with hs | he
    · obtain ⟨req, _, rfl⟩ := List.mem_map.mp hs
      constructor <;> simp [successRecord]
    · obtain ⟨req, _, rfl⟩ := List.mem_map.mp he
      constructor <;> simp [erroredRecord]

/-- C6 witness: on a concrete document with empty caller strings, the
summary record carries `uuid` and `job_name` equal to the empty string. -/
theorem c6_witness :
    ("uuid", JValue.str "") ∈ summaryRecord {} "" "" isoTest (.num 0) (.num 0) ∧
    ("job_name", JValue.str "") ∈ summaryRecord {} "" "" isoTest (.num 0) (.num 0) :=
  c6_uuid_job_name docMinimal "" "" isoTest resMinEmptyId rfl
    (summaryRecord {} "" "" isoTest (.num 0) (.num 0)) (List.mem_cons_self _ _)

/-- C7: every timestamp field is the `iso` image (modelling local-timezone
ISO-8601 rendering) of the record's epoch-seconds start time with 0 as the
default, so an absent start time yields `iso 0`, the rendering of epoch
zero; and every record of a successful extraction carries such a field. -/
theorem c7_timestamps (uuid job_name : String) (iso : Int → String) :
    (∀ b pt ot, ("timestamp", JValue.str (iso (b.start_time.getD 0))) ∈
       summaryRecord b uuid job_name iso pt ot) ∧
    (∀ b pt ot, b.start_time = none →
       ("timestamp", JValue.str (iso 0)) ∈ summaryRecord b uuid job_name iso pt ot) ∧
    (∀ r : Request,
       ("timestamp",
        JValue.str (iso ((r.scheduler_info.getD {}).request_start.getD 0))) ∈
       successRecord uuid job_name iso r) ∧
    (∀ r : Request, (r.scheduler_info.getD {}).request_start = none →
       ("timestamp", JValue.str (iso 0)) ∈ successRecord uuid job_name iso r) ∧
    (∀ r : Request,
       ("timestamp",
        JValue.str (iso ((r.scheduler_info.getD {}).request_start.getD 0))) ∈
       erroredRecord uuid job_name iso r) ∧
    (∀ r : Request, (r.scheduler_info.getD {}).request_start = none →
       ("timestamp", JValue.str (iso 0)) ∈ erroredRecord uuid job_name iso r) ∧
    (∀ doc res, parseDoc doc uuid job_name iso = .ok res →
       ∀ rec ∈ res, ∃ t : Int, ("timestamp", JValue.str (iso t)) ∈ rec) := by
  refine ⟨fun b pt ot => by simp [summaryRecord],
          fun b pt ot hn => by simp [summaryRecord, hn],
          fun r => by simp [successRecord],
          fun r hn => by simp [successRecord, hn],
          fun r => by simp [erroredRecord],
          fun r hn => by simp [erroredRecord, hn],
          fun doc res h rec hrec => ?_⟩
  obtain ⟨b, rest, pt, ot, hb, ht, hres⟩ :=
    parseDoc_ok_inv doc uuid job_name iso res h
  subst hres
  rcases List.mem_cons.mp hrec with rfl | hr2
  · exact ⟨b.start_time.getD 0, by simp [summaryRecord]⟩
  · rcases List.mem_append.mp hr2 with hs | he
    · obtain ⟨req, _, rfl⟩ := List.mem_map.mp hs
      exact ⟨(req.scheduler_info.getD {}).request_start.getD 0,
             by simp [successRecord]⟩
    · obtain ⟨req, _, rfl⟩ := List.mem_map.mp he
      exact ⟨(req.scheduler_info.getD {}).request_start.getD 0,
             by simp [erroredRecord]⟩

/-- C7 witness: a benchmark with `start_time` absent yields a summary
timestamp equal to the rendering of epoch zero. -/
theorem c7_witness :
    ("timestamp", JValue.str (isoTest 0)) ∈
      summaryRecord {} "" "" isoTest (.num 0) (.num 0) :=
  (c7_timestamps "" "" isoTest).2.1 {} (.num 0) (.num 0) rfl

/-- C8: for a missing input file, invalid structured data, or a document
whose `benchmarks` sequence is empty, the run terminates with status 1,
emits no output, and a specific error message is printed by the parse
stage. -/
theorem c8_input_errors (args : CLIArgs) (w : OSWorld) (iso : Int → String)
    (h : args.results = .missing ∨ args.results = .invalidJson ∨
         ∃ doc, args.results = .valid doc ∧ doc.benchmarks = []) :
    main_run args w iso = ⟨1, false⟩ ∧
    ∃ msg, parse_benchmarks args.results args.uuid args.job_name iso =
             .exited 1 msg := by
  rcases h with h | h | ⟨doc, h, hdoc⟩
  · exact ⟨by simp [main_run, parse_benchmarks, h], "Error: File not found",
           by simp [parse_benchmarks, h]⟩
  · exact ⟨by simp [main_run, parse_benchmarks, h], "Error: Invalid JSON",
           by simp [parse_benchmarks, h]⟩
  · refine ⟨?_, "Error: No benchmarks found in the file", ?_⟩
    · simp [main_run, parse_benchmarks, parseDoc, h, hdoc]
    · simp [parse_benchmarks, parseDoc, h, hdoc]

/-- C8 witness: a run against a missing results file exits 1 with no
output. -/
theorem c8_witness :
    main_run { results := .missing } { ping := .pongTrue,
                                       indexOp := .succeed "x" } isoTest =
      ⟨1, false⟩ ∧
    ∃ msg, parse_benchmarks FileInput.missing "" "" isoTest = .exited 1 msg :=
  c8_input_errors { results := .missing }
    { ping := .pongTrue, indexOp := .succeed "x" } isoTest (Or.inl rfl)

/-- C9: a `False` connectivity probe makes `index_to_opensearch` report the
cannot-connect error and return failure with no index attempt; success
occurs exactly when the probe answers true and the index call succeeds;
every failure prints exactly one non-success message; at most one index
attempt is ever made (no retry), and the function returns rather than
raising in every case. -/
theorem c9_indexer (dataArg : List Record) (es_server index_name : String)
    (w : OSWorld) :
    (w.ping = .pongFalse →
       index_to_opensearch dataArg es_server index_name w =
         ⟨false, [.cannotConnect], 0⟩) ∧
    ((index_to_opensearch dataArg es_server index_name w).success = true ↔
       w.ping = .pongTrue ∧ ∃ docId, w.indexOp = .succeed docId) ∧
    (index_to_opensearch dataArg es_server index_name w).indexAttempts ≤ 1 ∧
    ((index_to_opensearch dataArg es_server index_name w).success = false →
       ∃ m, (index_to_opensearch dataArg es_server index_name w).messages = [m]
            ∧ ∀ docId, m ≠ OSMsg.successId docId) := by
  obtain ⟨p, i⟩ := w
  cases p <;> cases i <;> simp [index_to_opensearch]

/-- C9 witness: with a probe that answers `False`, the call returns failure
with the cannot-connect message and zero index attempts. -/
theorem c9_witness :
    index_to_opensearch [] "http://localhost:9200" "bench" worldPingFalse =
      ⟨false, [.cannotConnect], 0⟩ :=
  (c9_indexer [] "http://localhost:9200" "bench" worldPingFalse).1 rfl

/-- C10: when `scheduler_info` lacks the `errored` flag, a record built
from the `successful` sequence gets `errored = False` while a record built
from the `errored` sequence gets `errored = True`; `completed` defaults to
`False` in both builders. -/
theorem c10_errored_defaults (uuid job_name : String) (iso : Int → String)
    (r : Request) (h : (r.scheduler_info.getD {}).errored = none) :
    ("errored", JValue.bool false) ∈ successRecord uuid job_name iso r ∧
    ("errored", JValue.bool true) ∈ erroredRecord uuid job_name iso r ∧
    ((r.scheduler_info.getD {}).completed = none →
       ("completed", JValue.bool false) ∈ successRecord uuid job_name iso r ∧
       ("completed", JValue.bool false) ∈ erroredRecord uuid job_name iso r) := by
  refine ⟨by simp [successRecord, h], by simp [erroredRecord, h], fun hc => ?_⟩
  exact ⟨by simp [successRecord, hc], by simp [erroredRecord, hc]⟩

/-- C10 witness: a request with no `scheduler_info` at all gets
`errored = False` as a successful-list record and `errored = True` as an
errored-list record, with `completed = False` in both. -/
theorem c10_witness :
    ("errored", JValue.bool false) ∈ successRecord "u" "j" isoTest {} ∧
    ("errored", JValue.bool true) ∈ erroredRecord "u" "j" isoTest {} ∧
    ("completed", JValue.bool false) ∈ successRecord "u" "j" isoTest {} ∧
    ("completed", JValue.bool false) ∈ erroredRecord "u" "j" isoTest {} := by
  have h := c10_errored_defaults "u" "j" isoTest {} rfl
  exact ⟨h.1, h.2.1, (h.2.2 rfl).1, (h.2.2 rfl).2⟩

/-- C1 counterexample: with indexing requested (both endpoint and index
name truthy), a valid results file, and a failing publish, the run exits 1
WITHOUT emitting the extracted output — `sys.exit(1)` at source line 231
precedes the output block at lines 233-241 — contradicting the claim that
output is emitted before the non-zero termination. -/
theorem c1_counterexample :
    truthy argsIndexing.es_server = true ∧
    truthy argsIndexing.es_index = true ∧
    parse_benchmarks argsIndexing.results argsIndexing.uuid
      argsIndexing.job_name isoTest = .ok resMin ∧
    (index_to_opensearch resMin (argsIndexing.es_server.getD "")
       (argsIndexing.es_index.getD "") worldPingFalse).success = false ∧
    main_run argsIndexing worldPingFalse isoTest =
      { exitCode := 1, outputEmitted := false } :=
  ⟨rfl, rfl, rfl, rfl, rfl⟩

/-- C1 amended: when indexing is requested and the publish fails, the
process terminates with status 1 without emitting the extracted output;
the output block is reached only when indexing was not requested or
succeeded. -/
theorem c1_amended (args : CLIArgs) (w : OSWorld) (iso : Int → String)
    (res : List Record)
    (hok : parse_benchmarks args.results args.uuid args.job_name iso = .ok res)
    (hs : truthy args.es_server = true) (hi : truthy args.es_index = true)
    (hfail : (index_to_opensearch res (args.es_server.getD "")
                (args.es_index.getD "") w).success = false) :
    main_run args w iso = { exitCode := 1, outputEmitted := false } := by
  simp [main_run, hok, hs, hi, hfail]

/-- C1 amended witness: the concrete indexing-requested run with a failing
probe exits 1 with no output emitted. -/
theorem c1_amended_witness :
    main_run argsIndexing worldPingFalse isoTest =
      { exitCode := 1, outputEmitted := false } :=
  c1_amended argsIndexing worldPingFalse isoTest resMin rfl rfl rfl rfl

/-- C2 (code bug): on a valid document whose `request_loader.data` string
contains exactly one `=`, the extractor raises an uncaught `IndexError`
(`data.split('=')[2]` at source line 70 indexes a two-element list),
instead of degrading to a default as the otherwise-defensive field access
is documented to do. -/
theorem c2_one_equals_raises :
    parseDoc docOneEq "" "" isoTest =
      .raised "IndexError: list index out of range" := rfl

/-- C3 counterexample: for `request_loader.data = "a=b=c=d"` (at least one
`=`; "everything after the second `=`" is `"c=d"`) the extractor sets
`output_tokens` to `"c"` — the third `'='`-split segment — refuting the
claim's description. -/
theorem c3_counterexample :
    parseDoc docThreeEq "" "" isoTest = .ok resThreeEq ∧
    (resThreeEq.head?.getD []).lookup "output_tokens" = some (JValue.str "c") ∧
    JValue.str "c" ≠ JValue.str "c=d" :=
  ⟨rfl, rfl, by decide⟩

/-- C3 amended: splitting on every `=`, prompt tokens is the second
segment truncated at its first comma and output tokens is the third
segment (text between the second and third `=`, or to the end); a string
with exactly one `=` raises an IndexError instead of producing values;
with no `=` both fields are the integer 0; the documented example yields
`"128"` and `"256"`; and a successful extraction carries the two computed
values in the summary record. -/
theorem c3_amended :
    (∀ s : List Char, '=' ∉ s → tokenFields s = .ok (.num 0, .num 0)) ∧
    (∀ a b c : List Char, '=' ∉ a → '=' ∉ b →
       tokenFields (a ++ '=' :: (b ++ '=' :: c)) =
         .ok (.str (String.mk (b.takeWhile (fun x => x != ','))),
              .str (String.mk (c.takeWhile (fun x => x != '='))))) ∧
    (∀ a b : List Char, '=' ∉ a → '=' ∉ b →
       tokenFields (a ++ '=' :: b) =
         .error "IndexError: list index out of range") ∧
    tokenFields "prompt_tokens=128,output_tokens=256".data =
      .ok (.str "128", .str "256") ∧
    (∀ doc uuid job_name iso res b rest pt ot,
       doc.benchmarks = b :: rest →
       parseDoc doc uuid job_name iso = .ok res →
       tokenFields ((b.request_loader.getD {}).data.getD "").data = .ok (pt, ot) →
       ("prompt_tokens", pt) ∈ res.head?.getD [] ∧
       ("output_tokens", ot) ∈ res.head?.getD []) := by
  refine ⟨tokenFields_no_eq, tokenFields_two_eq, tokenFields_one_eq, rfl, ?_⟩
  intro doc uuid job_name iso res b rest pt ot hb h ht
  obtain ⟨b', rest', pt', ot', hb', ht', hres⟩ :=
    parseDoc_ok_inv doc uuid job_name iso res h
  have hbe : b = b' := by
    have := hb.symm.trans hb'
    injection this
  subst hbe
  rw [ht] at ht'
  have hpo : pt = pt' ∧ ot = ot' := by
    have := Except.ok.inj ht'
    exact ⟨congrArg Prod.fst this, congrArg Prod.snd this⟩
  obtain ⟨rfl, rfl⟩ := hpo
  subst hres
  exact ⟨by simp [summaryRecord], by simp [summaryRecord]⟩

/-- C3 amended witness: a concrete two-`=` string is split as described. -/
theorem c3_witness :
    tokenFields ("ab".data ++ '=' :: ("12,x".data ++ '=' :: "34".data)) =
      .ok (.str "12", .str "34") := by
  have h := c3_amended.2.1 "ab".data "12,x".data "34".data
    (by decide) (by decide)
  exact h.trans (by rfl)

/-- C5 counterexample: the summary record of a minimal document contains a
`time_per_output_token_p95_ms` field (source line 129), refuting the claim
that the time-per-output-token category carries p99 only. -/
theorem c5_counterexample :
    parseDoc docMinimal "" "" isoTest = .ok resMinEmptyId ∧
    "time_per_output_token_p95_ms" ∈
      (resMinEmptyId.head?.getD []).map Prod.fst :=
  ⟨rfl, by decide⟩

/-- C5 amended: the summary record carries, for each of the seven metric
categories, the mean and p99, plus p95 for the five categories
requests-per-second, request-latency, tokens-per-second,
output-tokens-per-second AND time-per-output-token (p99 only for TTFT and
ITL); its field names are exactly `summaryKeys` in order, and when the
source `metrics` mapping is absent every declared numeric metric field is
present with value 0, never a missing key. -/
theorem c5_amended :
    (∀ b uuid job_name iso pt ot,
       (summaryRecord b uuid job_name iso pt ot).map Prod.fst = summaryKeys) ∧
    (∀ b uuid job_name iso pt ot, b.metrics = none →
       ∀ k ∈ metricFieldKeys,
         (k, JValue.num 0) ∈ summaryRecord b uuid job_name iso pt ot) := by
  constructor
  · intro b uuid job_name iso pt ot
    rfl
  · intro b uuid job_name iso pt ot hm k hk
    simp only [metricFieldKeys] at hk
    fin_cases hk <;> simp [summaryRecord, hm]

/-- C5 amended witness: with `metrics` absent, `ttft_mean_ms` is present
and zero in the summary record. -/
theorem c5_witness :
    ("ttft_mean_ms", JValue.num 0) ∈
      summaryRecord {} "" "" isoTest (.num 0) (.num 0) :=
  c5_amended.2 {} "" "" isoTest (.num 0) (.num 0) rfl "ttft_mean_ms"
    (by decide)
